import Mathlib

/-!
Verification of zenith's `src/main.rs` (startup, argument validation, and
lock-file handling) against its specification.

Paths are modelled as lists of components (`Path::new(db_path).join(x)`
becomes `db_path ++ [x]`), and the filesystem as the list of paths that
currently exist.  External effects of `start_zenith` that the source
delegates to the OS are modelled as explicit oracles:
`rawTermOk` tells whether `stdout().into_raw_mode()` succeeds (its failure
makes `init_terminal`'s `expect` panic), and `loopPanic` tells whether
`block_on(r.start())` panics, and with which message.  Filesystem
primitives (`File::create`, `fs::create_dir`, `remove_file`) are modelled
as succeeding, which is the path the claims are about.
-/

namespace Zenith

/-- A filesystem path, as a list of components. -/
abbrev FsPath := List String

/-- The filesystem: the list of paths that currently exist. -/
abbrev FS := List FsPath

/-- Does a path exist in the filesystem? (`Path::exists`). -/
def pathExists (fs : FS) (p : FsPath) : Bool :=
  decide (p ∈ fs)

/-- Create a path (`File::create` / `fs::create_dir`): afterwards it exists.
`File::create` truncates an existing file, which leaves existence unchanged. -/
def createPath (fs : FS) (p : FsPath) : FS :=
  if pathExists fs p then fs else p :: fs

/-- Remove a path (`std::fs::remove_file`). -/
def removePath (fs : FS) (p : FsPath) : FS :=
  fs.filter (fun q => decide (q ≠ p))

/-- How a call can end: a value returned to the caller, a direct process
exit (`std::process::exit`), or a panic. -/
inductive Outcome (α : Type) where
  | returned (a : α)
  | processExit (code : Nat)
  | panicked (msg : String)

/-- Is the outcome a value returned to the caller? -/
def Outcome.isReturned {α : Type} : Outcome α → Bool
  | Outcome.returned _ => true
  | _ => false

/-- Is the outcome a panic? -/
def Outcome.isPanicked {α : Type} : Outcome α → Bool
  | Outcome.panicked _ => true
  | _ => false

/-- Is the outcome a direct process exit? -/
def Outcome.isProcessExit {α : Type} : Outcome α → Bool
  | Outcome.processExit _ => true
  | _ => false

/-- The message of the `expect` in `init_terminal` (main.rs line 65). -/
def initTermPanicMsg : String := "Could not bind to STDOUT in raw mode."

/-- `init_terminal` (main.rs lines 61-73): acquires the raw terminal with
`.expect(...)`, so a failed acquisition panics rather than returning an
error. -/
def init_terminal (rawTermOk : Bool) : Outcome Unit :=
  if rawTermOk then Outcome.returned () else Outcome.panicked initTermPanicMsg

/-- The lock marker path: `Path::new(db_path).join(".zenith.lock")`
(main.rs line 111). -/
def lockPathOf (db_path : FsPath) : FsPath :=
  db_path ++ [".zenith.lock"]

/-- What a run of `start_zenith` produced: its outcome, the final
filesystem, and the `db` argument handed to `TerminalRenderer::new`
(`none` when control never reached the renderer). -/
structure StartResult where
  outcome : Outcome (Except String Unit)
  fs : FS
  rendererDb : Option (Option FsPath)

/-- The part of `start_zenith` from `init_terminal()` onward
(main.rs lines 136-164): terminal setup, the event loop, and the
shutdown path that removes the lock when history is enabled. -/
def runAfterLock (disable_history : Bool) (lock_path : FsPath)
    (rawTermOk : Bool) (loopPanic : Option String)
    (db : Option FsPath) (fs1 : FS) : StartResult :=
  match init_terminal rawTermOk with
  | Outcome.panicked msg =>
    { outcome := Outcome.panicked msg, fs := fs1, rendererDb := none }
  | _ =>
    match loopPanic with
    | some msg =>
      { outcome := Outcome.panicked msg, fs := fs1, rendererDb := some db }
    | none =>
      let fs2 :=
        if !disable_history && pathExists fs1 lock_path then
          removePath fs1 lock_path
        else fs1
      { outcome := Outcome.returned (Except.ok ()), fs := fs2,
        rendererDb := some db }

/-- `start_zenith` (main.rs lines 89-165).  The lock-check phase
(lines 110-134): if the lock exists and history is on, print and
`exit(1)`; if it exists and history is off, run with `db = None`;
if it does not exist and history is on, create the db directory when
missing, create the lock, and run with `db = Some(path)`; otherwise run
with `db = None`. -/
def start_zenith (disable_history : Bool) (db_path : FsPath)
    (rawTermOk : Bool) (loopPanic : Option String) (fs0 : FS) : StartResult :=
  let lock_path := lockPathOf db_path
  if pathExists fs0 lock_path then
    if !disable_history then
      { outcome := Outcome.processExit 1, fs := fs0, rendererDb := none }
    else
      runAfterLock disable_history lock_path rawTermOk loopPanic none fs0
  else
    if !disable_history then
      let fs1 := if pathExists fs0 db_path then fs0 else createPath fs0 db_path
      let fs2 := createPath fs1 lock_path
      runAfterLock disable_history lock_path rawTermOk loopPanic (some db_path) fs2
    else
      runAfterLock disable_history lock_path rawTermOk loopPanic none fs0

/-! ### Rust integer parsing (`str::parse`) -/

/-- Interpret a non-empty all-digit character list as a natural number;
`none` otherwise. -/
def parseNatDigits (l : List Char) : Option Nat :=
  if !l.isEmpty && l.all Char.isDigit then
    some (l.foldl (fun acc c => acc * 10 + (c.toNat - 48)) 0)
  else none

/-- Rust's `str::parse::<uN>` for `bits`-bit unsigned integers: an optional
leading plus sign, then one or more ASCII digits, value in range. -/
def rustParseUnsigned (bits : Nat) (s : String) : Option Nat :=
  let l := match s.toList with
    | '+' :: rest => rest
    | l => l
  match parseNatDigits l with
  | some n => if n < 2 ^ bits then some n else none
  | none => none

/-- `str::parse::<u64>`. -/
def rustParseU64 (s : String) : Option Nat := rustParseUnsigned 64 s

/-- `str::parse::<u16>`. -/
def rustParseU16 (s : String) : Option Nat := rustParseUnsigned 16 s

/-- `str::parse::<i64>`: an optional sign, then one or more ASCII digits,
value within `[-2^63, 2^63 - 1]`. -/
def rustParseI64 (s : String) : Option Int :=
  match s.toList with
  | '-' :: rest =>
    match parseNatDigits rest with
    | some n => if n ≤ 2 ^ 63 then some (-(n : Int)) else none
    | none => none
  | '+' :: rest =>
    match parseNatDigits rest with
    | some n => if n < 2 ^ 63 then some (n : Int) else none
    | none => none
  | l =>
    match parseNatDigits l with
    | some n => if n < 2 ^ 63 then some (n : Int) else none
    | none => none

/-- The unbounded decimal-integer reading of a string: an optional sign
followed by one or more digits, with no range restriction.  Used to state
what a string "represents" independently of any machine width. -/
def intOfString (s : String) : Option Int :=
  match s.toList with
  | '-' :: rest => (parseNatDigits rest).map (fun n => -(n : Int))
  | '+' :: rest => (parseNatDigits rest).map (fun n => (n : Int))
  | l => (parseNatDigits l).map (fun n => (n : Int))

/-- `validate_refresh_rate` (main.rs lines 167-177). -/
def validate_refresh_rate (arg : String) : Except String Unit :=
  let val := (rustParseU64 arg).getD 0
  if val ≥ 1000 then Except.ok ()
  else Except.error (arg ++ " Enter a refresh rate that is at least 1000 ms")

/-- `validate_height` (main.rs lines 179-189). -/
def validate_height (arg : String) : Except String Unit :=
  let val := (rustParseI64 arg).getD 0
  if val ≥ 0 then Except.ok ()
  else Except.error (arg ++ " Enter a height greater than or equal to 0.")

/-- `main`'s height conversion (main.rs lines 292-311):
`matches.value_of(..).unwrap().parse::<u16>().unwrap()` — a failed `u16`
parse panics. -/
def mainParseHeight (s : String) : Outcome Nat :=
  match rustParseU16 s with
  | some n => Outcome.returned n
  | none => Outcome.panicked "called Result::unwrap on an Err value"

/-- `main`'s default db path (main.rs lines 192-194):
`dirs::cache_dir().unwrap_or(Path::new("./").to_owned()).join("zenith")`;
the `"./"` fallback is the current directory, here the component `"."`. -/
def default_db_path (cache_dir : Option FsPath) : FsPath :=
  (cache_dir.getD ["."]) ++ ["zenith"]

/-! ### Two-process interleaving of the lock acquisition

Each process runs the lock-check phase of `start_zenith` with history
enabled: first the existence check of main.rs line 112, then — only if its
own check saw no lock — the creation of main.rs line 129, after which it
holds the lock.  A process whose check saw the lock exits instead.  The
two steps are separate filesystem operations in the source, so steps of
the two processes may interleave. -/

/-- One step of one of the two racing processes. -/
inductive RaceOp where
  | check0
  | create0
  | check1
  | create1

/-- Shared filesystem plus each process's local state: the result its
`exists()` check returned (if performed yet), and whether it went on to
create the lock and so acquired it. -/
structure RaceState where
  fs : FS
  checked0 : Option Bool
  checked1 : Option Bool
  acquired0 : Bool
  acquired1 : Bool

/-- Initial race state over a filesystem. -/
def raceInit (fs : FS) : RaceState :=
  { fs := fs, checked0 := none, checked1 := none,
    acquired0 := false, acquired1 := false }

/-- Execute one interleaved step.  A `create` step is a no-op unless that
process's earlier check saw no lock (a process that saw the lock exits,
and a process cannot create before checking). -/
def raceStep (db_path : FsPath) (st : RaceState) (op : RaceOp) : RaceState :=
  match op with
  | RaceOp.check0 => { st with checked0 := some (pathExists st.fs (lockPathOf db_path)) }
  | RaceOp.create0 =>
    match st.checked0 with
    | some false =>
      { st with fs := createPath st.fs (lockPathOf db_path), acquired0 := true }
    | _ => st
  | RaceOp.check1 => { st with checked1 := some (pathExists st.fs (lockPathOf db_path)) }
  | RaceOp.create1 =>
    match st.checked1 with
    | some false =>
      { st with fs := createPath st.fs (lockPathOf db_path), acquired1 := true }
    | _ => st

/-- Run an interleaving of the two processes' steps. -/
def raceRun (db_path : FsPath) (ops : List RaceOp) (st : RaceState) : RaceState :=
  ops.foldl (raceStep db_path) st

/-! ### Helper lemmas -/

/-- After `createPath`, the path exists. -/
theorem pathExists_createPath_self (fs : FS) (p : FsPath) :
    pathExists (createPath fs p) p = true := by
  unfold createPath
  cases h : pathExists fs p with
  | true => simpa using h
  | false => simp [pathExists]

/-- After `removePath`, the path no longer exists. -/
theorem pathExists_removePath_self (fs : FS) (p : FsPath) :
    pathExists (removePath fs p) p = false := by
  simp [pathExists, removePath]

/-! ### Claims -/

/-- C1: if the lock marker exists in the storage directory and history is
enabled, `start_zenith` exits the process with the non-zero code 1 before
touching the filesystem or constructing the renderer. -/
theorem lock_held_history_enabled_exits_nonzero
    (db : FsPath) (rto : Bool) (lp : Option String) (fs : FS)
    (h : pathExists fs (lockPathOf db) = true) :
    start_zenith false db rto lp fs =
      { outcome := Outcome.processExit 1, fs := fs, rendererDb := none } := by
  simp [start_zenith, h]

/-- Witness for C1 at a concrete filesystem that holds the lock. -/
theorem lock_held_history_enabled_exits_nonzero_witness :
    pathExists [["db", ".zenith.lock"]] (lockPathOf ["db"]) = true ∧
    start_zenith false ["db"] true none [["db", ".zenith.lock"]] =
      { outcome := Outcome.processExit 1, fs := [["db", ".zenith.lock"]],
        rendererDb := none } :=
  ⟨rfl, lock_held_history_enabled_exits_nonzero ["db"] true none
    [["db", ".zenith.lock"]] rfl⟩

/-- C2: if the lock marker exists but history is disabled, `start_zenith`
does not exit: the renderer is invoked with database path `None`. -/
theorem lock_held_history_disabled_proceeds
    (db : FsPath) (lp : Option String) (fs : FS)
    (h : pathExists fs (lockPathOf db) = true) :
    (start_zenith true db true lp fs).rendererDb = some none ∧
    ((start_zenith true db true lp fs).outcome).isProcessExit = false := by
  cases lp <;>
    simp [start_zenith, runAfterLock, init_terminal, h, Outcome.isProcessExit]

/-- Witness for C2 at a concrete filesystem that holds the lock. -/
theorem lock_held_history_disabled_proceeds_witness :
    pathExists [["db", ".zenith.lock"]] (lockPathOf ["db"]) = true ∧
    (start_zenith true ["db"] true none [["db", ".zenith.lock"]]).rendererDb =
      some none :=
  ⟨rfl, (lock_held_history_disabled_proceeds ["db"] none
    [["db", ".zenith.lock"]] rfl).1⟩

/-- C3: with history enabled and the lock initially absent, a run whose
event loop returns normally ends with the lock marker removed and `Ok`
returned, while a run whose event loop panics leaves the lock marker
behind. -/
theorem lock_removed_on_shutdown_left_on_panic
    (db : FsPath) (fs : FS)
    (h : pathExists fs (lockPathOf db) = false) :
    (pathExists (start_zenith false db true none fs).fs (lockPathOf db) = false ∧
     (start_zenith false db true none fs).outcome =
       Outcome.returned (Except.ok ())) ∧
    ∀ msg : String,
      pathExists (start_zenith false db true (some msg) fs).fs (lockPathOf db) = true ∧
      (start_zenith false db true (some msg) fs).outcome = Outcome.panicked msg := by
  have hc := pathExists_createPath_self
    (if pathExists fs db then fs else createPath fs db) (lockPathOf db)
  have hr := pathExists_removePath_self
    (createPath (if pathExists fs db then fs else createPath fs db) (lockPathOf db))
    (lockPathOf db)
  refine ⟨⟨?_, ?_⟩, fun msg => ⟨?_, ?_⟩⟩ <;>
    simp [start_zenith, runAfterLock, init_terminal, h, hc, hr]

/-- Witness for C3 at the empty filesystem. -/
theorem lock_removed_on_shutdown_left_on_panic_witness :
    pathExists [] (lockPathOf ["db"]) = false ∧
    pathExists (start_zenith false ["db"] true none []).fs (lockPathOf ["db"]) = false ∧
    pathExists (start_zenith false ["db"] true (some "boom") []).fs
      (lockPathOf ["db"]) = true :=
  ⟨rfl, (lock_removed_on_shutdown_left_on_panic ["db"] [] rfl).1.1,
    ((lock_removed_on_shutdown_left_on_panic ["db"] [] rfl).2 "boom").1⟩

/-- C4: the existence check (main.rs line 112) and the lock creation
(main.rs line 129) are separate filesystem operations, so in the
interleaving where both processes check before either creates, both
processes acquire the lock — the check-and-create is not atomic and two
concurrent openers of the same storage directory can both acquire. -/
theorem lock_check_create_race_both_acquire :
    (raceRun ["db"] [RaceOp.check0, RaceOp.check1, RaceOp.create0, RaceOp.create1]
        (raceInit [])).acquired0 = true ∧
    (raceRun ["db"] [RaceOp.check0, RaceOp.check1, RaceOp.create0, RaceOp.create1]
        (raceInit [])).acquired1 = true :=
  ⟨rfl, rfl⟩

/-- C5: `validate_refresh_rate` accepts a string exactly when it parses as
an unsigned 64-bit integer of value at least 1000; parse failures default
to 0 and are rejected. -/
theorem validate_refresh_rate_accepts_iff (s : String) :
    validate_refresh_rate s = Except.ok () ↔
    ∃ n, rustParseU64 s = some n ∧ 1000 ≤ n := by
  unfold validate_refresh_rate
  cases h : rustParseU64 s with
  | none => simp [h]
  | some n =>
    by_cases hn : 1000 ≤ n
    · simp [h, hn]
    · simp [h, hn]

/-- C6 counterexample: at concrete inputs, neither startup failure is a
value returned to the caller — the lock-held-with-history failure is a
direct process exit, and a failed raw-terminal acquisition is a panic
(both in `start_zenith` and in `init_terminal` itself), contradicting the
claim that the core surfaces both as failure values returned to the
caller. -/
theorem startup_failures_not_returned_cex :
    Outcome.isReturned (start_zenith false ["db"] true none
      [["db", ".zenith.lock"]]).outcome = false ∧
    Outcome.isReturned (start_zenith false ["db"] false none []).outcome = false ∧
    Outcome.isReturned (init_terminal false) = false :=
  ⟨rfl, rfl, rfl⟩

/-- C6 amended: the two startup failures are distinguishable from each
other, but neither is returned to the caller as a failure value: the
lock-held-with-history failure terminates the process directly with exit
code 1, and a failed raw-terminal acquisition panics with the `expect`
message of `init_terminal`. -/
theorem startup_failures_exit_or_panic :
    (∀ (db : FsPath) (fs : FS) (rto : Bool) (lp : Option String),
      pathExists fs (lockPathOf db) = true →
      (start_zenith false db rto lp fs).outcome = Outcome.processExit 1) ∧
    (∀ (dh : Bool) (db : FsPath) (fs : FS) (lp : Option String),
      pathExists fs (lockPathOf db) = false →
      (start_zenith dh db false lp fs).outcome = Outcome.panicked initTermPanicMsg) ∧
    (Outcome.processExit 1 ≠
      (Outcome.panicked initTermPanicMsg : Outcome (Except String Unit))) := by
  refine ⟨fun db fs rto lp h => ?_, fun dh db fs lp h => ?_, fun hh => ?_⟩
  · simp [start_zenith, h]
  · cases dh <;> simp [start_zenith, runAfterLock, init_terminal, h]
  · exact Outcome.noConfusion hh

/-- Witness for the amended C6 at concrete inputs. -/
theorem startup_failures_exit_or_panic_witness :
    pathExists [["db", ".zenith.lock"]] (lockPathOf ["db"]) = true ∧
    (start_zenith false ["db"] true none [["db", ".zenith.lock"]]).outcome =
      Outcome.processExit 1 ∧
    pathExists [] (lockPathOf ["db"]) = false ∧
    (start_zenith false ["db"] false none []).outcome =
      Outcome.panicked initTermPanicMsg :=
  ⟨rfl,
    startup_failures_exit_or_panic.1 ["db"] [["db", ".zenith.lock"]] true none rfl,
    rfl,
    startup_failures_exit_or_panic.2.1 false ["db"] [] none rfl⟩

/-- C7: the default storage directory is the platform cache directory
joined with the component `zenith`, falling back to the current directory
when no cache directory exists. -/
theorem default_db_path_cache_join_zenith :
    (∀ c : FsPath, default_db_path (some c) = c ++ ["zenith"]) ∧
    default_db_path none = ["."] ++ ["zenith"] :=
  ⟨fun _ => rfl, rfl⟩

/-- C8: with history disabled, `start_zenith` leaves the filesystem
untouched for every database path, environment and prior filesystem state,
and never passes a database path to the renderer. -/
theorem disable_history_touches_nothing
    (db : FsPath) (rto : Bool) (lp : Option String) (fs : FS) :
    (start_zenith true db rto lp fs).fs = fs ∧
    ((start_zenith true db rto lp fs).rendererDb = none ∨
     (start_zenith true db rto lp fs).rendererDb = some none) := by
  by_cases hl : pathExists fs (lockPathOf db) = true <;> cases rto <;> cases lp <;>
    simp [start_zenith, runAfterLock, init_terminal, hl]

/-- C9 counterexample: the string `-9223372036854775809` represents the
negative integer `-(2^63) - 1`, which is below the `i64` range, so the
parse in `validate_height` fails, the value defaults to 0, and the
argument is accepted — contradicting the claim that `validate_height`
rejects exactly the arguments representing negative integers. -/
theorem validate_height_accepts_huge_negative_cex :
    intOfString "-9223372036854775809" = some (-9223372036854775809) ∧
    (-9223372036854775809 : Int) < 0 ∧
    validate_height "-9223372036854775809" = Except.ok () :=
  ⟨rfl, by decide, rfl⟩

/-- C9 amended: `validate_height` rejects an argument exactly when it
parses as a negative 64-bit signed integer; any argument whose `i64`
parse fails — including negative integers below `-(2^63)` — defaults to 0
and is accepted. -/
theorem validate_height_rejects_iff_neg_i64 (s : String) :
    (∃ e, validate_height s = Except.error e) ↔
    ∃ v, rustParseI64 s = some v ∧ v < 0 := by
  unfold validate_height
  cases h : rustParseI64 s with
  | none => simp [h]
  | some v =>
    by_cases hv : (0 : Int) ≤ v
    · simp [h, hv]
    · simp [h, hv]
      omega

/-- C10: every string that fails to parse as `i64` is accepted by
`validate_height` (the failed parse defaults to 0), and there are
validator-accepted height arguments — a non-numeric string and an integer
above 65535 — on which `main`'s `parse::<u16>().unwrap()` panics. -/
theorem validate_height_parse_failure_accepted_u16_panics :
    (∀ s : String, rustParseI64 s = none → validate_height s = Except.ok ()) ∧
    (validate_height "abc" = Except.ok () ∧ rustParseU16 "abc" = none ∧
      (mainParseHeight "abc").isPanicked = true) ∧
    (validate_height "70000" = Except.ok () ∧ rustParseU16 "70000" = none ∧
      (mainParseHeight "70000").isPanicked = true) := by
  refine ⟨fun s h => ?_, ⟨rfl, rfl, rfl⟩, ⟨rfl, rfl, rfl⟩⟩
  simp [validate_height, h]

/-- Witness for C10 at the concrete non-numeric argument. -/
theorem validate_height_parse_failure_accepted_u16_panics_witness :
    rustParseI64 "abc" = none ∧ validate_height "abc" = Except.ok () :=
  ⟨rfl, validate_height_parse_failure_accepted_u16_panics.1 "abc" rfl⟩

end Zenith
